import Mathlib

/-
Verification of the task-queue core of the celery-bg-run repository.

The embedding models, from the source:
  - src/celery_worker.py: the in-memory per-worker-process dictionaries
    USER_PENDING_TASKS and USER_RUNNING and the functions over them
    (is_user_running, set_user_running, clear_user_running,
    add_pending_task, pop_pending_task), the celery tasks
    enqueue_pending_task, run_agent_task (with celery retry semantics,
    max_retries = 3, countdown = 60) and check_pending_queues;
  - src/main.py: the FastAPI submit_task endpoint writing to a Redis list.

Python dictionaries are modelled as insertion-ordered association lists
with unique keys; celery message sends (apply_async) are modelled as
emitted messages in the result of a step.
-/

namespace CeleryBgRun

/-- Lookup in a Python-style dict modelled as an association list:
returns the value at the first occurrence of the key, like d.get(k). -/
def dget {κ α : Type} [BEq κ] (d : List (κ × α)) (k : κ) : Option α :=
  match d with
  | [] => none
  | p :: rest => if p.1 == k then some p.2 else dget rest k

/-- Assignment d[k] = v in a Python-style dict: replaces the value at the
existing key in place, or appends the new key at the end (insertion order). -/
def dset {κ α : Type} [BEq κ] (d : List (κ × α)) (k : κ) (v : α) : List (κ × α) :=
  match d with
  | [] => [(k, v)]
  | p :: rest => if p.1 == k then (k, v) :: rest else p :: dset rest k v

/-- Removal d.pop(k) of a key from a Python-style dict. -/
def dremove {κ α : Type} [BEq κ] (d : List (κ × α)) (k : κ) : List (κ × α) :=
  d.filter (fun p => !(p.1 == k))

/-- list(d.keys()) of a Python-style dict. -/
def dkeys {κ α : Type} (d : List (κ × α)) : List κ :=
  d.map (fun p => p.1)

theorem dget_dset_self {κ α : Type} [BEq κ] [LawfulBEq κ]
    (d : List (κ × α)) (k : κ) (v : α) :
    dget (dset d k v) k = some v := by
  induction d with
  | nil => simp [dget, dset]
  | cons p rest ih =>
    by_cases hp : p.1 == k
    · simp [dset, hp, dget]
    · simp [dset, hp, dget, ih]

theorem dget_dremove_self {κ α : Type} [BEq κ] [LawfulBEq κ]
    (d : List (κ × α)) (k : κ) :
    dget (dremove d k) k = none := by
  induction d with
  | nil => rfl
  | cons p rest ih =>
    by_cases hp : p.1 == k
    · simpa [dremove, List.filter, hp] using ih
    · simpa [dremove, List.filter, hp, dget] using ih

/-- The mutable state of one celery worker process: the module-level
dictionaries USER_PENDING_TASKS (user_id -> list of task_data) and
USER_RUNNING (user_id -> bool) of src/celery_worker.py. -/
structure WorkerState where
  pending : List (Nat × List String)
  running : List (Nat × Bool)
deriving DecidableEq

/-- The state of a freshly started worker process: both dictionaries empty. -/
def initialWorker : WorkerState := { pending := [], running := [] }

/-- is_user_running of src/celery_worker.py: USER_RUNNING.get(user_id, False). -/
def is_user_running (s : WorkerState) (user_id : Nat) : Bool :=
  (dget s.running user_id).getD false

/-- set_user_running of src/celery_worker.py: USER_RUNNING[user_id] = True. -/
def set_user_running (s : WorkerState) (user_id : Nat) : WorkerState :=
  { s with running := dset s.running user_id true }

/-- clear_user_running of src/celery_worker.py: USER_RUNNING[user_id] = False. -/
def clear_user_running (s : WorkerState) (user_id : Nat) : WorkerState :=
  { s with running := dset s.running user_id false }

/-- add_pending_task of src/celery_worker.py: create the list for the key if
absent, then append the task at the tail. -/
def add_pending_task (s : WorkerState) (user_id : Nat) (task_data : String) :
    WorkerState :=
  match dget s.pending user_id with
  | none => { s with pending := dset s.pending user_id [task_data] }
  | some ts => { s with pending := dset s.pending user_id (ts ++ [task_data]) }

/-- pop_pending_task of src/celery_worker.py: return None when the list is
absent or empty; otherwise pop the front task and, when the list becomes
empty, remove the dictionary entry. -/
def pop_pending_task (s : WorkerState) (user_id : Nat) :
    WorkerState × Option String :=
  match dget s.pending user_id with
  | none => (s, none)
  | some [] => (s, none)
  | some (t :: rest) =>
    if rest.isEmpty then
      ({ s with pending := dremove s.pending user_id }, some t)
    else
      ({ s with pending := dset s.pending user_id rest }, some t)

/-- A celery message produced by apply_async: either an enqueue_pending_task
message or a run_agent_task message carrying the countdown in seconds and the
retry count the delivered execution will observe. -/
inductive Msg where
  | enqueueMsg (user_id : Nat) (task_data : String)
  | runMsg (user_id : Nat) (task_data : String) (countdown : Nat) (retries : Nat)
deriving DecidableEq

/-- The terminating outcomes of one delivery of run_agent_task: the skip-path
return "requeued", the success return "done", a raised Retry (the attempt was
re-scheduled), or a raised MaxRetriesExceededError. -/
inductive RunOutcome where
  | requeued
  | done
  | retryScheduled
  | maxRetriesExceeded
deriving DecidableEq, BEq

/-- The effect of one delivery of run_agent_task: the worker state afterwards,
the outcome, the celery messages it sent, and whether the external action
(asyncio.run(run_cua())) was invoked. -/
structure RunEffect where
  state : WorkerState
  outcome : RunOutcome
  msgs : List Msg
  actionInvoked : Bool
deriving DecidableEq

/-- max_retries of the run_agent_task celery task (decorator argument). -/
def max_retries : Nat := 3

/-- The countdown passed to self.retry in run_agent_task. -/
def retry_countdown : Nat := 60

/-- enqueue_pending_task of src/celery_worker.py: add_pending_task then
return "queued". -/
def enqueue_pending_task (s : WorkerState) (user_id : Nat) (task_data : String) :
    WorkerState × String :=
  (add_pending_task s user_id task_data, "queued")

/-- run_agent_task of src/celery_worker.py. If is_user_running, re-enqueue the
task via enqueue_pending_task.apply_async and return "requeued" (the try/finally
is never entered). Otherwise set_user_running, run the external action
(action_succeeds tells whether it raises), and: on success return "done"; on an
exception call self.retry(countdown = 60), which re-schedules the task when the
observed retry count is below max_retries and raises MaxRetriesExceededError
otherwise. The finally block clears the running flag on every exit of the try. -/
def run_agent_task (s : WorkerState) (user_id : Nat) (task_data : String)
    (action_succeeds : Bool) (retries : Nat) : RunEffect :=
  if is_user_running s user_id then
    { state := s
      outcome := RunOutcome.requeued
      msgs := [Msg.enqueueMsg user_id task_data]
      actionInvoked := false }
  else
    let s1 := set_user_running s user_id
    if action_succeeds then
      { state := clear_user_running s1 user_id
        outcome := RunOutcome.done
        msgs := []
        actionInvoked := true }
    else
      if retries < max_retries then
        { state := clear_user_running s1 user_id
          outcome := RunOutcome.retryScheduled
          msgs := [Msg.runMsg user_id task_data retry_countdown (retries + 1)]
          actionInvoked := true }
      else
        { state := clear_user_running s1 user_id
          outcome := RunOutcome.maxRetriesExceeded
          msgs := []
          actionInvoked := true }

/-- One iteration of the loop body of check_pending_queues: skip the user when
is_user_running, otherwise pop_pending_task and, when the popped value is
truthy (Python's `if next_task:` — not None and not the empty string),
apply_async a run_agent_task message (no countdown, fresh retry count). A
popped empty-string task is falsy: it has already been removed from the list
and is dispatched nowhere. -/
def cpq_step (acc : WorkerState × List Msg) (user_id : Nat) :
    WorkerState × List Msg :=
  if is_user_running acc.1 user_id then acc
  else
    match pop_pending_task acc.1 user_id with
    | (s2, some t) =>
      if t.isEmpty then (s2, acc.2)
      else (s2, acc.2 ++ [Msg.runMsg user_id t 0 0])
    | (s2, none) => (s2, acc.2)

/-- check_pending_queues of src/celery_worker.py: iterate over a snapshot of
list(USER_PENDING_TASKS.keys()) and dispatch the next pending task of every
user that is not marked running. -/
def check_pending_queues (s : WorkerState) : WorkerState × List Msg :=
  (dkeys s.pending).foldl cpq_step (s, [])

/-- The record json.dumps-ed by submit_task in src/main.py:
a task string and a user_id. -/
structure SubmittedRecord where
  task : String
  user_id : Nat
deriving DecidableEq

/-- The Redis database (db = 1) that src/main.py writes to: string keys
mapped to lists of pushed records. -/
structure RedisState where
  lists : List (String × List SubmittedRecord)
deriving DecidableEq

/-- Redis RPUSH: append the value at the tail of the list at the key,
creating the list when absent. -/
def redis_rpush (r : RedisState) (key : String) (v : SubmittedRecord) :
    RedisState :=
  match dget r.lists key with
  | none => { lists := dset r.lists key [v] }
  | some vs => { lists := dset r.lists key (vs ++ [v]) }

/-- The Redis key used by submit_task in src/main.py for a given user. -/
def redis_pending_key (user_id : Nat) : String :=
  "user:" ++ toString user_id ++ ":pending"

/-- The response body of the submit-task endpoint. -/
structure SubmitResponse where
  status : String
deriving DecidableEq

/-- submit_task of src/main.py: RPUSH the json record onto the
user:{user_id}:pending Redis list and return status "queued". FastAPI only
coerces the query parameters to int and str; the function body performs no
further validation. -/
def submit_task (r : RedisState) (user_id : Nat) (task : String) :
    RedisState × SubmitResponse :=
  (redis_rpush r (redis_pending_key user_id) { task := task, user_id := user_id },
   { status := "queued" })

/-- The state visible to the whole deployment as written in src/: the Redis
database used by src/main.py and the in-memory state of a worker process
running src/celery_worker.py. -/
structure SystemState where
  redis : RedisState
  worker : WorkerState
deriving DecidableEq

/-- One call of the submit-task endpoint at the system level: only the Redis
half of the state is touched. -/
def system_submit (sys : SystemState) (user_id : Nat) (task : String) :
    SystemState × SubmitResponse :=
  let res := submit_task sys.redis user_id task
  ({ sys with redis := res.1 }, res.2)

/-- The admission fragment of run_agent_task (the is_user_running test,
followed on the pass branch by set_user_running), split out as its own step so
that executions overlapping in time can be modelled: a worker passes admission
and is then in flight until its finally block clears the flag. -/
def admission_check_and_set (s : WorkerState) (user_id : Nat) :
    WorkerState × Bool :=
  if is_user_running s user_id then (s, false)
  else (set_user_running s user_id, true)

/-- Two concurrent celery worker processes. Each has its own module-level
USER_PENDING_TASKS and USER_RUNNING dictionaries: the in-memory state is not
shared between processes. -/
structure TwoProcState where
  proc1 : WorkerState
  proc2 : WorkerState
deriving DecidableEq

/-- The admission fragment executed on process 1. -/
def admission_on_proc1 (t : TwoProcState) (user_id : Nat) :
    TwoProcState × Bool :=
  let a := admission_check_and_set t.proc1 user_id
  ({ t with proc1 := a.1 }, a.2)

/-- The admission fragment executed on process 2. -/
def admission_on_proc2 (t : TwoProcState) (user_id : Nat) :
    TwoProcState × Bool :=
  let a := admission_check_and_set t.proc2 user_id
  ({ t with proc2 := a.1 }, a.2)

/-- The full retry lifecycle of one submitted task on one worker: deliver
run_agent_task, and while the attempt ends in self.retry (outcome
retryScheduled), follow the re-scheduled message with the carried retry count.
The list outcomes gives the success or failure of the external action on each
successive attempt; the trace returns the final worker state and the outcome
of every delivered attempt. -/
def drive (s : WorkerState) (user_id : Nat) (task_data : String)
    (outcomes : List Bool) (retries : Nat) : WorkerState × List RunOutcome :=
  match outcomes with
  | [] => (s, [])
  | ok :: rest =>
    let e := run_agent_task s user_id task_data ok retries
    if e.outcome = RunOutcome.retryScheduled then
      let next := drive e.state user_id task_data rest (retries + 1)
      (next.1, e.outcome :: next.2)
    else
      (e.state, [e.outcome])

theorem is_user_running_set_self (s : WorkerState) (uid : Nat) :
    is_user_running (set_user_running s uid) uid = true := by
  simp [is_user_running, set_user_running, dget_dset_self]

theorem is_user_running_clear_self (s : WorkerState) (uid : Nat) :
    is_user_running (clear_user_running s uid) uid = false := by
  simp [is_user_running, clear_user_running, dget_dset_self]

theorem set_user_running_pending (s : WorkerState) (uid : Nat) :
    (set_user_running s uid).pending = s.pending := rfl

theorem clear_user_running_pending (s : WorkerState) (uid : Nat) :
    (clear_user_running s uid).pending = s.pending := rfl

theorem dget_add_pending_task (s : WorkerState) (uid : Nat) (t : String) :
    dget (add_pending_task s uid t).pending uid =
      some ((dget s.pending uid).getD [] ++ [t]) := by
  unfold add_pending_task
  cases h : dget s.pending uid with
  | none => simp [h, dget_dset_self]
  | some ts => simp [h, dget_dset_self]

theorem run_agent_task_skip (s : WorkerState) (uid : Nat) (t : String)
    (b : Bool) (r : Nat) (h : is_user_running s uid = true) :
    run_agent_task s uid t b r =
      { state := s
        outcome := RunOutcome.requeued
        msgs := [Msg.enqueueMsg uid t]
        actionInvoked := false } := by
  simp [run_agent_task, h]

theorem run_agent_task_success (s : WorkerState) (uid : Nat) (t : String)
    (r : Nat) (h : is_user_running s uid = false) :
    run_agent_task s uid t true r =
      { state := clear_user_running (set_user_running s uid) uid
        outcome := RunOutcome.done
        msgs := []
        actionInvoked := true } := by
  simp [run_agent_task, h]

theorem run_agent_task_fail_retry (s : WorkerState) (uid : Nat) (t : String)
    (r : Nat) (h : is_user_running s uid = false) (hr : r < max_retries) :
    run_agent_task s uid t false r =
      { state := clear_user_running (set_user_running s uid) uid
        outcome := RunOutcome.retryScheduled
        msgs := [Msg.runMsg uid t retry_countdown (r + 1)]
        actionInvoked := true } := by
  simp [run_agent_task, h, hr]

theorem run_agent_task_fail_final (s : WorkerState) (uid : Nat) (t : String)
    (r : Nat) (h : is_user_running s uid = false) (hr : ¬ r < max_retries) :
    run_agent_task s uid t false r =
      { state := clear_user_running (set_user_running s uid) uid
        outcome := RunOutcome.maxRetriesExceeded
        msgs := []
        actionInvoked := true } := by
  simp [run_agent_task, h, hr]

theorem run_clear_is_user_running (s : WorkerState) (uid : Nat) :
    is_user_running (clear_user_running (set_user_running s uid) uid) uid
      = false :=
  is_user_running_clear_self (set_user_running s uid) uid

theorem drive_props (uid : Nat) (t : String) :
    ∀ (outcomes : List Bool) (r : Nat) (s : WorkerState),
      is_user_running s uid = false → r ≤ max_retries →
      (drive s uid t outcomes r).1.pending = s.pending ∧
      (drive s uid t outcomes r).2.length ≤ max_retries + 1 - r ∧
      (drive s uid t outcomes r).2.countP
          (fun o => o == RunOutcome.retryScheduled) ≤ max_retries - r := by
  intro outcomes
  induction outcomes with
  | nil =>
    intro r s h hr
    simp [drive]
  | cons ok rest ih =>
    intro r s h hr
    have hmr : max_retries = 3 := rfl
    have hb1 : (RunOutcome.done == RunOutcome.retryScheduled) = false := by decide
    have hb2 : (RunOutcome.retryScheduled == RunOutcome.retryScheduled) = true := by decide
    have hb3 : (RunOutcome.maxRetriesExceeded == RunOutcome.retryScheduled) = false := by decide
    cases ok with
    | true =>
      rw [drive, run_agent_task_success s uid t r h]
      simp only [hmr] at hr
      simp [List.countP_cons, hmr, hb1]
      exact ⟨rfl, by omega⟩
    | false =>
      by_cases hlt : r < max_retries
      · rw [drive, run_agent_task_fail_retry s uid t r h hlt]
        have hrun := run_clear_is_user_running s uid
        have ihr := ih (r + 1)
          (clear_user_running (set_user_running s uid) uid) hrun (by omega)
        simp only [hmr] at hr ihr
        simp only [clear_user_running_pending, set_user_running_pending] at ihr
        simp [List.countP_cons, hmr, hb2]
        exact ⟨ihr.1, by omega, by omega⟩
      · rw [drive, run_agent_task_fail_final s uid t r h hlt]
        simp only [hmr] at hr hlt
        simp [List.countP_cons, hmr, hb3]
        exact ⟨rfl, by omega⟩
/-- A worker state in which user 7 is marked running and nothing is pending. -/
def exRunning7 : WorkerState := { pending := [], running := [(7, true)] }

/-- A worker state with exactly one pending task for user 7 and no one running. -/
def exOnePending : WorkerState := { pending := [(7, ["t1"])], running := [] }

/-- A worker state in which user 7 has a next task "t2" queued and no one is
marked running (the running dictionary as it is mid-execution is irrelevant to
the claims below, which look at it after the finally block ran). -/
def exNextPending : WorkerState := { pending := [(7, ["t2"])], running := [] }

/-- An empty Redis database. -/
def emptyRedis : RedisState := { lists := [] }

/-- Claim C8: add_pending_task on an identity whose pending list is empty or
absent, immediately followed by pop_pending_task, returns exactly the added
task, and the pending-list entry for that identity is pruned from the
dictionary afterwards; pop_pending_task on an empty or absent list returns
None. -/
theorem enqueue_dequeue_roundtrip (s : WorkerState) (uid : Nat) (t : String)
    (h : dget s.pending uid = none ∨ dget s.pending uid = some []) :
    (pop_pending_task (add_pending_task s uid t) uid).2 = some t ∧
    dget (pop_pending_task (add_pending_task s uid t) uid).1.pending uid
      = none ∧
    (pop_pending_task s uid).2 = none := by
  have hadd : (add_pending_task s uid t).pending = dset s.pending uid [t] := by
    rcases h with h | h <;> simp [add_pending_task, h]
  refine ⟨?_, ?_, ?_⟩
  · simp [pop_pending_task, hadd, dget_dset_self]
  · simp [pop_pending_task, hadd, dget_dset_self, dget_dremove_self]
  · rcases h with h | h <;> simp [pop_pending_task, h]

/-- Witness for C8 at the empty worker state, identity 7, task "t1". -/
theorem enqueue_dequeue_roundtrip_witness :
    (dget initialWorker.pending 7 = none ∨
      dget initialWorker.pending 7 = some []) ∧
    ((pop_pending_task (add_pending_task initialWorker 7 "t1") 7).2
        = some "t1" ∧
     dget (pop_pending_task (add_pending_task initialWorker 7 "t1") 7).1.pending
        7 = none ∧
     (pop_pending_task initialWorker 7).2 = none) :=
  ⟨by decide, enqueue_dequeue_roundtrip initialWorker 7 "t1" (by decide)⟩

/-- Claim C10: when run_agent_task is delivered for an identity whose running
flag is already set, it returns "requeued" without invoking the external action
and without touching the state: the USER_RUNNING dictionary (every identity's
marker) and the pending dictionary are exactly as before, since the early
return happens before the try/finally block. -/
theorem skip_path_frame (s : WorkerState) (uid : Nat) (t : String)
    (b : Bool) (r : Nat) (h : is_user_running s uid = true) :
    (run_agent_task s uid t b r).outcome = RunOutcome.requeued ∧
    (run_agent_task s uid t b r).state = s ∧
    (run_agent_task s uid t b r).actionInvoked = false := by
  rw [run_agent_task_skip s uid t b r h]
  exact ⟨rfl, rfl, rfl⟩

/-- Witness for C10: identity 7 is marked running, the duplicate delivery
returns "requeued" and leaves the state untouched. -/
theorem skip_path_frame_witness :
    is_user_running exRunning7 7 = true ∧
    ((run_agent_task exRunning7 7 "t1" true 0).outcome
        = RunOutcome.requeued ∧
     (run_agent_task exRunning7 7 "t1" true 0).state = exRunning7 ∧
     (run_agent_task exRunning7 7 "t1" true 0).actionInvoked = false) :=
  ⟨by decide, skip_path_frame exRunning7 7 "t1" true 0 (by decide)⟩

/-- Claim C7: a task that loses the admission race (running flag already set)
is re-enqueued and never dropped: run_agent_task returns "requeued" and sends
exactly one enqueue_pending_task message for the task, and delivering that
message appends the task at the tail of the identity's pending list, where it
is then present. -/
theorem race_loss_preserves_task (s s2 : WorkerState) (uid : Nat) (t : String)
    (b : Bool) (r : Nat) (h : is_user_running s uid = true) :
    (run_agent_task s uid t b r).outcome = RunOutcome.requeued ∧
    (run_agent_task s uid t b r).msgs = [Msg.enqueueMsg uid t] ∧
    dget (enqueue_pending_task s2 uid t).1.pending uid
      = some ((dget s2.pending uid).getD [] ++ [t]) ∧
    t ∈ ((dget (enqueue_pending_task s2 uid t).1.pending uid).getD []) := by
  refine ⟨?_, ?_, ?_, ?_⟩
  · rw [run_agent_task_skip s uid t b r h]
  · rw [run_agent_task_skip s uid t b r h]
  · exact dget_add_pending_task s2 uid t
  · have hd := dget_add_pending_task s2 uid t
    have he : (enqueue_pending_task s2 uid t).1 = add_pending_task s2 uid t :=
      rfl
    rw [he, hd]
    simp

/-- Witness for C7: identity 7 already running, task "t1"; the enqueue message
delivered on the empty worker puts "t1" into the pending list. -/
theorem race_loss_preserves_task_witness :
    is_user_running exRunning7 7 = true ∧
    ((run_agent_task exRunning7 7 "t1" true 0).outcome
        = RunOutcome.requeued ∧
     (run_agent_task exRunning7 7 "t1" true 0).msgs
        = [Msg.enqueueMsg 7 "t1"] ∧
     dget (enqueue_pending_task initialWorker 7 "t1").1.pending 7
        = some ((dget initialWorker.pending 7).getD [] ++ ["t1"]) ∧
     "t1" ∈ ((dget (enqueue_pending_task initialWorker 7 "t1").1.pending
        7).getD [])) :=
  ⟨by decide,
    race_loss_preserves_task exRunning7 initialWorker 7 "t1" true 0 (by decide)⟩

/-- Two fresh worker processes, each with its own empty in-memory dictionaries. -/
def exTwoProc : TwoProcState := { proc1 := initialWorker, proc2 := initialWorker }

/-- Claim C1, counterexample: with two concurrent worker processes, two
overlapping executions for identity 7 both pass the admission check-and-set —
process 1 passes, and while that execution is still in flight process 2 passes
as well, because each process consults only its own in-memory USER_RUNNING
dictionary. The system-wide single-flight claim is false at this input. -/
theorem two_process_double_admission :
    (admission_on_proc1 exTwoProc 7).2 = true ∧
    (admission_on_proc2 (admission_on_proc1 exTwoProc 7).1 7).2 = true := by
  decide

/-- Claim C1 (amended): the admission check-and-set of run_agent_task
serializes executions only within one worker process. Within a single process
whose task deliveries do not interleave between the test and the set: an
identity not marked running passes admission, is then marked running while in
flight, and any further admission or run_agent_task delivery for that identity
during the flight fails or takes the skip path without invoking the external
action. No exclusion holds across worker processes. -/
theorem single_flight_per_process (s : WorkerState) (uid : Nat) (t : String)
    (b : Bool) (r : Nat) (h : is_user_running s uid = false) :
    (admission_check_and_set s uid).2 = true ∧
    is_user_running (admission_check_and_set s uid).1 uid = true ∧
    (admission_check_and_set (admission_check_and_set s uid).1 uid).2
      = false ∧
    (run_agent_task (admission_check_and_set s uid).1 uid t b r).outcome
      = RunOutcome.requeued ∧
    (run_agent_task (admission_check_and_set s uid).1 uid t b r).actionInvoked
      = false := by
  have h1 : admission_check_and_set s uid = (set_user_running s uid, true) := by
    simp [admission_check_and_set, h]
  rw [h1]
  have h2 : is_user_running (set_user_running s uid) uid = true :=
    is_user_running_set_self s uid
  refine ⟨rfl, h2, ?_, ?_, ?_⟩
  · simp [admission_check_and_set, h2]
  · rw [run_agent_task_skip (set_user_running s uid) uid t b r h2]
  · rw [run_agent_task_skip (set_user_running s uid) uid t b r h2]

/-- Witness for C1 (amended) at the empty worker state, identity 7. -/
theorem single_flight_per_process_witness :
    is_user_running initialWorker 7 = false ∧
    ((admission_check_and_set initialWorker 7).2 = true ∧
     is_user_running (admission_check_and_set initialWorker 7).1 7 = true ∧
     (admission_check_and_set (admission_check_and_set initialWorker 7).1 7).2
        = false ∧
     (run_agent_task (admission_check_and_set initialWorker 7).1 7 "t2" true
        0).outcome = RunOutcome.requeued ∧
     (run_agent_task (admission_check_and_set initialWorker 7).1 7 "t2" true
        0).actionInvoked = false) :=
  ⟨by decide, single_flight_per_process initialWorker 7 "t2" true 0 (by decide)⟩

/-- Claim C3, counterexample: the first attempt for identity 7 fails and
self.retry re-schedules it with countdown 60, yet the running marker is false
immediately afterwards — the finally block cleared it — so the marker is NOT
held continuously between the failed attempt and its re-scheduled retry. -/
theorem marker_not_held_across_retry :
    (run_agent_task initialWorker 7 "t1" false 0).outcome
      = RunOutcome.retryScheduled ∧
    (run_agent_task initialWorker 7 "t1" false 0).msgs
      = [Msg.runMsg 7 "t1" 60 1] ∧
    is_user_running (run_agent_task initialWorker 7 "t1" false 0).state 7
      = false := by
  decide

/-- Claim C3 (amended): the finally block of run_agent_task clears the running
marker at the end of every attempt, including a failed attempt whose retry was
just re-scheduled with countdown 60: between a failed attempt and its
re-scheduled retry the marker is clear, so another task for that identity may
be admitted mid-retry. -/
theorem marker_cleared_between_attempts (s : WorkerState) (uid : Nat)
    (t : String) (r : Nat) (h : is_user_running s uid = false)
    (hr : r < max_retries) :
    (run_agent_task s uid t false r).outcome = RunOutcome.retryScheduled ∧
    (run_agent_task s uid t false r).msgs
      = [Msg.runMsg uid t retry_countdown (r + 1)] ∧
    is_user_running (run_agent_task s uid t false r).state uid = false := by
  rw [run_agent_task_fail_retry s uid t r h hr]
  exact ⟨rfl, rfl, run_clear_is_user_running s uid⟩

/-- Witness for C3 (amended) at the empty worker state, identity 7, first
attempt. -/
theorem marker_cleared_between_attempts_witness :
    (is_user_running initialWorker 7 = false ∧ 0 < max_retries) ∧
    ((run_agent_task initialWorker 7 "t1" false 0).outcome
        = RunOutcome.retryScheduled ∧
     (run_agent_task initialWorker 7 "t1" false 0).msgs
        = [Msg.runMsg 7 "t1" retry_countdown (0 + 1)] ∧
     is_user_running (run_agent_task initialWorker 7 "t1" false 0).state 7
        = false) :=
  ⟨⟨by decide, by decide⟩,
    marker_cleared_between_attempts initialWorker 7 "t1" 0 (by decide)
      (by decide)⟩

/-- Claim C5, counterexample: identity 7 completes an execution successfully
while its next task "t2" is pending; the running marker is released by the
finally block, but the executor emits no dispatch message and "t2" stays in the
pending list — no completion-triggered dispatch exists. A later periodic
check_pending_queues cycle is what dispatches "t2". -/
theorem completion_leaves_next_task_pending :
    (run_agent_task exNextPending 7 "t1" true 0).outcome = RunOutcome.done ∧
    is_user_running (run_agent_task exNextPending 7 "t1" true 0).state 7
      = false ∧
    (run_agent_task exNextPending 7 "t1" true 0).msgs = [] ∧
    dget (run_agent_task exNextPending 7 "t1" true 0).state.pending 7
      = some ["t2"] ∧
    (check_pending_queues
        (run_agent_task exNextPending 7 "t1" true 0).state).2
      = [Msg.runMsg 7 "t2" 0 0] := by
  decide

/-- Claim C5 (amended): at the end of a successful execution run_agent_task
releases the running marker but performs no completion-triggered dispatch: it
sends no messages and leaves the pending dictionary untouched; the identity's
next pending task waits for the next periodic Dispatcher cycle. -/
theorem no_completion_triggered_dispatch (s : WorkerState) (uid : Nat)
    (t : String) (r : Nat) (h : is_user_running s uid = false) :
    (run_agent_task s uid t true r).outcome = RunOutcome.done ∧
    is_user_running (run_agent_task s uid t true r).state uid = false ∧
    (run_agent_task s uid t true r).msgs = [] ∧
    (run_agent_task s uid t true r).state.pending = s.pending := by
  rw [run_agent_task_success s uid t r h]
  exact ⟨rfl, run_clear_is_user_running s uid, rfl, rfl⟩

/-- Witness for C5 (amended) at the state with "t2" pending for identity 7. -/
theorem no_completion_triggered_dispatch_witness :
    is_user_running exNextPending 7 = false ∧
    ((run_agent_task exNextPending 7 "t1" true 0).outcome = RunOutcome.done ∧
     is_user_running (run_agent_task exNextPending 7 "t1" true 0).state 7
        = false ∧
     (run_agent_task exNextPending 7 "t1" true 0).msgs = [] ∧
     (run_agent_task exNextPending 7 "t1" true 0).state.pending
        = exNextPending.pending) :=
  ⟨by decide, no_completion_triggered_dispatch exNextPending 7 "t1" 0
    (by decide)⟩

/-- Claim C6: when the external action keeps failing, run_agent_task is
retried at most max_retries = 3 times (at most 4 delivered attempts in any
retry lifecycle), every re-scheduled retry carries the fixed countdown of 60;
once the observed retry count reaches max_retries a further failure raises
MaxRetriesExceededError, sends no further message, and leaves the pending
dictionary unchanged — the abandoned task is not re-appended to the pending
list and no further execution of it is scheduled. -/
theorem retry_policy_bounded (s : WorkerState) (uid : Nat) (t : String)
    (outcomes : List Bool) (h : is_user_running s uid = false) :
    (drive s uid t outcomes 0).2.countP
        (fun o => o == RunOutcome.retryScheduled) ≤ max_retries ∧
    (drive s uid t outcomes 0).2.length ≤ max_retries + 1 ∧
    (drive s uid t outcomes 0).1.pending = s.pending ∧
    retry_countdown = 60 ∧
    (∀ r, r < max_retries →
      (run_agent_task s uid t false r).msgs
        = [Msg.runMsg uid t retry_countdown (r + 1)]) ∧
    (∀ r, max_retries ≤ r →
      (run_agent_task s uid t false r).outcome
          = RunOutcome.maxRetriesExceeded ∧
      (run_agent_task s uid t false r).msgs = [] ∧
      (run_agent_task s uid t false r).state.pending = s.pending) := by
  have hp := drive_props uid t outcomes 0 s h (by simp [max_retries])
  refine ⟨?_, ?_, hp.1, rfl, ?_, ?_⟩
  · simpa using hp.2.2
  · simpa using hp.2.1
  · intro r hr
    rw [run_agent_task_fail_retry s uid t r h hr]
  · intro r hr
    rw [run_agent_task_fail_final s uid t r h (by omega)]
    exact ⟨rfl, rfl, rfl⟩

/-- Witness for C6 at the empty worker state, identity 7, a lifecycle in which
the external action fails on four successive attempts. -/
theorem retry_policy_bounded_witness :
    is_user_running initialWorker 7 = false ∧
    ((drive initialWorker 7 "t1" [false, false, false, false] 0).2.countP
        (fun o => o == RunOutcome.retryScheduled) ≤ max_retries ∧
     (drive initialWorker 7 "t1" [false, false, false, false] 0).2.length
        ≤ max_retries + 1 ∧
     (drive initialWorker 7 "t1" [false, false, false, false] 0).1.pending
        = initialWorker.pending ∧
     retry_countdown = 60 ∧
     (∀ r, r < max_retries →
       (run_agent_task initialWorker 7 "t1" false r).msgs
         = [Msg.runMsg 7 "t1" retry_countdown (r + 1)]) ∧
     (∀ r, max_retries ≤ r →
       (run_agent_task initialWorker 7 "t1" false r).outcome
           = RunOutcome.maxRetriesExceeded ∧
       (run_agent_task initialWorker 7 "t1" false r).msgs = [] ∧
       (run_agent_task initialWorker 7 "t1" false r).state.pending
          = initialWorker.pending)) :=
  ⟨by decide,
    retry_policy_bounded initialWorker 7 "t1" [false, false, false, false]
      (by decide)⟩

/-- A fresh deployment: empty Redis database, fresh worker process. -/
def exSystem : SystemState := { redis := emptyRedis, worker := initialWorker }

/-- Claim C2 (code bug): a task accepted by submit_task with status "queued"
is NOT appended to the pending list that check_pending_queues scans. On a
fresh deployment the submission for user 1 lands in the Redis list
user:1:pending, which nothing under src/ reads, while the worker's in-memory
USER_PENDING_TASKS dictionary stays empty — in general submit_task never
touches the worker state — and the periodic Dispatcher cycle dispatches
nothing, so the accepted task never becomes eligible for execution. -/
theorem submitted_task_invisible_to_dispatcher :
    (system_submit exSystem 1 "hello").2.status = "queued" ∧
    dget (system_submit exSystem 1 "hello").1.redis.lists
        (redis_pending_key 1) = some [{ task := "hello", user_id := 1 }] ∧
    (system_submit exSystem 1 "hello").1.worker = exSystem.worker ∧
    (system_submit exSystem 1 "hello").1.worker.pending = [] ∧
    (check_pending_queues (system_submit exSystem 1 "hello").1.worker).2
      = [] ∧
    (∀ (sys : SystemState) (uid : Nat) (task : String),
      (system_submit sys uid task).1.worker = sys.worker) :=
  ⟨rfl, by decide, rfl, rfl, rfl, fun sys uid task => rfl⟩

/-- Claim C4, counterexample: a Dispatcher cycle over a state with one pending
task for identity 7 dispatches it, yet the running marker of identity 7 is
still unset after the cycle: check_pending_queues never acquired (set) the
marker, it only read it, contradicting the claim that the front task is
dequeued only after a successful tryAcquireRunning acquisition. -/
theorem dispatcher_dispatches_without_acquiring :
    (check_pending_queues exOnePending).2 = [Msg.runMsg 7 "t1" 0 0] ∧
    is_user_running (check_pending_queues exOnePending).1 7 = false := by
  decide

/-- A worker state with a single pending task for one identity. -/
def onePending (uid : Nat) (t : String) : WorkerState :=
  { pending := [(uid, [t])], running := [] }

/-- Claim C4 (amended): check_pending_queues does not acquire the Running
Marker; it only reads it, skipping identities whose flag is set (loop body a
no-op there) and, for the others, popping the front task and dispatching it
when its string is non-empty (Python's truthiness test silently drops a popped
empty-string task), which leaves the marker unset (it is set later, by the
delivered run_agent_task itself). Of two Dispatcher cycles over the same
identity with one pending non-empty task run in sequence (or interleaved at
the granularity of the atomic pop), exactly one dispatches the task: the
other finds the pending list empty. -/
theorem dispatcher_no_acquire_sequential_exclusive (uid : Nat) (t : String)
    (ht : t.isEmpty = false) :
    (check_pending_queues (onePending uid t)).2 = [Msg.runMsg uid t 0 0] ∧
    is_user_running (check_pending_queues (onePending uid t)).1 uid = false ∧
    (check_pending_queues (check_pending_queues (onePending uid t)).1).2
      = [] ∧
    (∀ acc : WorkerState × List Msg, is_user_running acc.1 uid = true →
      cpq_step acc uid = acc) := by
  have h1 : check_pending_queues (onePending uid t)
      = ({ pending := [], running := [] }, [Msg.runMsg uid t 0 0]) := by
    simp [check_pending_queues, onePending, dkeys, cpq_step, is_user_running,
      dget, pop_pending_task, dremove, List.filter, ht]
  refine ⟨?_, ?_, ?_, ?_⟩
  · rw [h1]
  · rw [h1]
    simp [is_user_running, dget]
  · rw [h1]
    simp [check_pending_queues, dkeys]
  · intro acc hacc
    simp [cpq_step, hacc]

/-- Witness for C4 (amended) at identity 7 with the non-empty pending task
"t1". -/
theorem dispatcher_no_acquire_sequential_exclusive_witness :
    ("t1" : String).isEmpty = false ∧
    ((check_pending_queues (onePending 7 "t1")).2 = [Msg.runMsg 7 "t1" 0 0] ∧
     is_user_running (check_pending_queues (onePending 7 "t1")).1 7 = false ∧
     (check_pending_queues (check_pending_queues (onePending 7 "t1")).1).2
        = [] ∧
     (∀ acc : WorkerState × List Msg, is_user_running acc.1 7 = true →
       cpq_step acc 7 = acc)) :=
  ⟨by decide, dispatcher_no_acquire_sequential_exclusive 7 "t1" (by decide)⟩

/-- Claim C9, counterexample: a submission with an empty payload is not
rejected: submit_task for user 1 with task "" acknowledges "queued" and
appends the empty-payload record to the Redis pending list. The endpoint
performs no payload-non-emptiness validation. -/
theorem empty_payload_accepted :
    (submit_task emptyRedis 1 "").2.status = "queued" ∧
    dget (submit_task emptyRedis 1 "").1.lists (redis_pending_key 1)
      = some [{ task := "", user_id := 1 }] := by
  decide

/-- Claim C9 (amended): submit_task relies only on the framework's coercion of
user_id to an integer and task to a string; its body performs no validation at
all: for every payload, the empty string included, it appends the record at
the tail of the user's Redis pending list and acknowledges "queued". It never
triggers execution directly: it only writes to the Redis store, which no
executor or dispatcher in src/ reads. -/
theorem submit_accepts_any_payload (r : RedisState) (uid : Nat)
    (task : String) :
    (submit_task r uid task).2.status = "queued" ∧
    dget (submit_task r uid task).1.lists (redis_pending_key uid)
      = some ((dget r.lists (redis_pending_key uid)).getD []
              ++ [{ task := task, user_id := uid }]) := by
  refine ⟨rfl, ?_⟩
  show dget (redis_rpush r (redis_pending_key uid)
      { task := task, user_id := uid }).lists (redis_pending_key uid) = _
  unfold redis_rpush
  cases h : dget r.lists (redis_pending_key uid) with
  | none => simp [h, dget_dset_self]
  | some vs => simp [h, dget_dset_self]

end CeleryBgRun
